import Mathlib

/-!
Shallow embedding of the Price-Alert Monitor of the Finance AI Agent
(`src/server.ts` and `src/tools.ts`).

The agent keeps its alert collection in the durable-object state as a list
of alert records.  The tools `setPriceAlert`, `listAlerts` and `deleteAlert`
read that list, build an updated list and store it back with `setState`;
the scheduled task `checkPriceAlerts` reads the list, queries the Yahoo
Finance chart endpoint for a price and either deactivates the alert and
appends a chat notification, or reschedules itself 300 seconds out.

The embedding models the state as an explicit `List Alert` argument and
threads it through each operation; calls to `agent.schedule` are recorded
as `(delaySeconds, alertId)` pairs and saved chat notifications as
`AlertMessage` records carrying exactly the values the code interpolates
into the message text.  Prices (JavaScript numbers in the code) are
modelled as rationals.
-/

/-- The alert condition, `"above" | "below"` in the TypeScript union. -/
inductive Condition : Type
  | above
  | below
deriving DecidableEq, Repr

/-- One price alert, mirroring the `PriceAlert` interface of `tools.ts`
(`id`, `symbol`, `targetPrice`, `condition`, `createdAt`, `active`). -/
structure Alert : Type where
  id : String
  symbol : String
  targetPrice : ℚ
  condition : Condition
  createdAt : String
  active : Bool
deriving DecidableEq, Repr

/-- Outcome of the price lookup performed by `checkPriceAlerts`:
`fetchError` models a rejected `fetch` or failed `response.json()`
(the `catch` path of the code), `noPrice` models a response whose
`chart.result[0].meta.regularMarketPrice` is absent (so `currentPrice`
is `undefined`), and `price p` models an extracted numeric price. -/
inductive FetchOutcome : Type
  | fetchError
  | noPrice
  | price (p : ℚ)
deriving DecidableEq, Repr

/-- The data interpolated into the chat message saved by
`checkPriceAlerts` when an alert triggers: the text is
`"🔔 **PRICE ALERT TRIGGERED!**\n\n{symbol} has gone {condition}
$\x7btargetPrice}!\n\nCurrent price: $\x7bcurrentPrice.toFixed(2)}"`,
so the message identifies exactly these four values. -/
structure AlertMessage : Type where
  symbol : String
  condition : Condition
  targetPrice : ℚ
  currentPrice : ℚ
deriving DecidableEq, Repr

/-- Everything one invocation of `checkPriceAlerts` does: the alert list
it leaves in the agent state, the chat notifications it saves, and the
`agent.schedule(delay, "checkPriceAlerts", alertId)` calls it makes,
as `(delay, alertId)` pairs. -/
structure CheckResult : Type where
  alerts : List Alert
  saved : List AlertMessage
  scheduled : List (Nat × String)
deriving DecidableEq, Repr

/-- The trigger test of `checkPriceAlerts`:
`alert.condition === "above" ? currentPrice >= alert.targetPrice
: currentPrice <= alert.targetPrice`. -/
def triggered (condition : Condition) (targetPrice currentPrice : ℚ) : Bool :=
  match condition with
  | Condition.above => decide (currentPrice ≥ targetPrice)
  | Condition.below => decide (currentPrice ≤ targetPrice)

/-- The deactivation map the code runs inline when an alert triggers:
`alerts.map((a) => a.id === alertId ? { ...a, active: false } : a)`.
This is what the spec calls `AlertStore.markTriggered`. -/
def markTriggeredMap (alerts : List Alert) (alertId : String) : List Alert :=
  alerts.map (fun a => if a.id == alertId then { a with active := false } else a)

/-- Modelled from the spec: `AlertStore.markTriggered(id) -> bool` returns
whether a change occurred.  The code performs the deactivation inline in
`checkPriceAlerts` (the `markTriggeredMap` above) and never computes a
change flag, so the boolean component follows the spec sentence
"sets `active=false` ... returns whether a change occurred": it is true
exactly when some alert with that id is currently active. -/
def markTriggered (alerts : List Alert) (alertId : String) :
    List Alert × Bool :=
  (markTriggeredMap alerts alertId,
   alerts.any (fun a => a.id == alertId && a.active))

/-- One invocation of `Chat.checkPriceAlerts(alertId)` in `server.ts`,
with the fetched price supplied as an explicit `FetchOutcome`:

* `const alert = alerts.find((a) => a.id === alertId);
  if (!alert || !alert.active) return;`
* the `try` block fetches the Yahoo chart; a rejected fetch or JSON
  failure lands in `catch` and returns (`fetchError`);
* `if (!currentPrice) return;` — `undefined` (`noPrice`) and the falsy
  number `0` both return here;
* `triggered` as above; if triggered, `setState` with the deactivation
  map and `saveMessages` with one notification; otherwise
  `this.schedule(300, "checkPriceAlerts", alertId)`. -/
def checkPriceAlerts (alerts : List Alert) (alertId : String)
    (fetched : FetchOutcome) : CheckResult :=
  match alerts.find? (fun a => a.id == alertId) with
  | none => ⟨alerts, [], []⟩
  | some alert =>
    if alert.active = false then ⟨alerts, [], []⟩
    else
      match fetched with
      | FetchOutcome.fetchError => ⟨alerts, [], []⟩
      | FetchOutcome.noPrice => ⟨alerts, [], []⟩
      | FetchOutcome.price p =>
        if p = 0 then ⟨alerts, [], []⟩
        else if triggered alert.condition alert.targetPrice p then
          ⟨markTriggeredMap alerts alertId,
           [⟨alert.symbol, alert.condition, alert.targetPrice, p⟩], []⟩
        else
          ⟨alerts, [], [(300, alertId)]⟩

/-- The id generated by `setPriceAlert`: `` `alert-${Date.now()}` ``,
with the millisecond clock reading passed in as `now`. -/
def mkAlertId (now : Nat) : String :=
  "alert-" ++ toString now

/-- The `setPriceAlert` tool of `tools.ts`: builds
`{ id: alert-<now>, symbol: symbol.toUpperCase(), targetPrice, condition,
createdAt, active: true }`, stores `[...alerts, newAlert]`, and schedules
`(300, "checkPriceAlerts", newAlert.id)`.  Returns the updated list, the
new alert, and the schedule requests made. -/
def setPriceAlert (alerts : List Alert) (symbol : String) (targetPrice : ℚ)
    (condition : Condition) (now : Nat) (createdAt : String) :
    List Alert × Alert × List (Nat × String) :=
  let newAlert : Alert :=
    ⟨mkAlertId now, symbol.toUpper, targetPrice, condition, createdAt, true⟩
  (alerts ++ [newAlert], newAlert, [(300, newAlert.id)])

/-- The projection `listAlerts` applies to each active alert:
`{ id, symbol, condition, targetPrice, createdAt }`. -/
structure AlertView : Type where
  id : String
  symbol : String
  condition : Condition
  targetPrice : ℚ
  createdAt : String
deriving DecidableEq, Repr

/-- The field projection used by `listAlerts`. -/
def Alert.view (a : Alert) : AlertView :=
  ⟨a.id, a.symbol, a.condition, a.targetPrice, a.createdAt⟩

/-- The `listAlerts` tool: filters `alerts` to the active ones and maps
each to its `AlertView`.  When no alert is active the code returns the
string "No active price alerts. Use setPriceAlert to create one!",
modelled as `none`; otherwise it returns the projected list (`some`).
The tool reads the agent state and never calls `setState`, so the state
component of `listAlertsTool` is the input list itself. -/
def listAlerts (alerts : List Alert) : Option (List AlertView) :=
  let activeAlerts := alerts.filter (fun a => a.active)
  if activeAlerts.isEmpty then none
  else some (activeAlerts.map Alert.view)

/-- The `listAlerts` tool together with the (unchanged) agent state. -/
def listAlertsTool (alerts : List Alert) :
    List Alert × Option (List AlertView) :=
  (alerts, listAlerts alerts)

/-- The `deleteAlert` tool:
`const updatedAlerts = alerts.filter((a) => a.id !== alertId);` —
when nothing was removed (`alerts.length === updatedAlerts.length`) it
returns a not-found message and does not touch the state; otherwise it
stores the filtered list.  The boolean is whether a removal occurred,
which is what decides between the two returned messages. -/
def deleteAlert (alerts : List Alert) (alertId : String) :
    List Alert × Bool :=
  let updatedAlerts := alerts.filter (fun a => !(a.id == alertId))
  if alerts.length == updatedAlerts.length then (alerts, false)
  else (updatedAlerts, true)

/-- C1, counterexample: two creates performed against the same collection
do NOT always yield distinct ids.  The id is `alert-<Date.now()>` with no
collision check, so a second create observing the same millisecond clock
reading (here `now = 1000`) produces an id equal to the first create's id
and colliding with an id already in the collection. -/
theorem setPriceAlert_id_collision :
    (setPriceAlert ((setPriceAlert [] "AAPL" 100 Condition.above 1000 "t0").1)
        "TSLA" 50 Condition.below 1000 "t0").2.1.id =
      (setPriceAlert [] "AAPL" 100 Condition.above 1000 "t0").2.1.id ∧
    (setPriceAlert ((setPriceAlert [] "AAPL" 100 Condition.above 1000 "t0").1)
        "TSLA" 50 Condition.below 1000 "t0").2.1.id ∈
      ((setPriceAlert [] "AAPL" 100 Condition.above 1000 "t0").1).map Alert.id :=
  ⟨by decide, by decide⟩

/-- C1 (amended): every create returns an Alert with `active = true` and
appends it to the collection; its id is `alert-<now>`, so it avoids
collision exactly when no existing alert carries the id built from the
observed clock reading — the code performs no collision check, so
freshness holds only under that hypothesis. -/
theorem setPriceAlert_fresh (alerts : List Alert) (symbol : String)
    (targetPrice : ℚ) (condition : Condition) (now : Nat) (createdAt : String)
    (h : mkAlertId now ∉ alerts.map Alert.id) :
    (setPriceAlert alerts symbol targetPrice condition now createdAt).2.1.active = true ∧
    (setPriceAlert alerts symbol targetPrice condition now createdAt).2.1.id ∉
      alerts.map Alert.id ∧
    (setPriceAlert alerts symbol targetPrice condition now createdAt).1 =
      alerts ++ [(setPriceAlert alerts symbol targetPrice condition now createdAt).2.1] :=
  ⟨rfl, h, rfl⟩

/-- Witness for the amended C1 at a concrete input: a one-alert collection
created at millisecond 1000, with the new create observing millisecond 2000. -/
theorem setPriceAlert_fresh_witness :
    mkAlertId 2000 ∉
      ([⟨"alert-1000", "AAPL", 100, Condition.above, "t0", true⟩] : List Alert).map
        Alert.id ∧
    ((setPriceAlert [⟨"alert-1000", "AAPL", 100, Condition.above, "t0", true⟩]
        "TSLA" 50 Condition.below 2000 "t1").2.1.active = true ∧
      (setPriceAlert [⟨"alert-1000", "AAPL", 100, Condition.above, "t0", true⟩]
        "TSLA" 50 Condition.below 2000 "t1").2.1.id ∉
        ([⟨"alert-1000", "AAPL", 100, Condition.above, "t0", true⟩] : List Alert).map
          Alert.id ∧
      (setPriceAlert [⟨"alert-1000", "AAPL", 100, Condition.above, "t0", true⟩]
        "TSLA" 50 Condition.below 2000 "t1").1 =
        [⟨"alert-1000", "AAPL", 100, Condition.above, "t0", true⟩] ++
          [(setPriceAlert [⟨"alert-1000", "AAPL", 100, Condition.above, "t0", true⟩]
             "TSLA" 50 Condition.below 2000 "t1").2.1]) :=
  ⟨by decide, setPriceAlert_fresh _ _ _ _ _ _ (by decide)⟩

/-- C2: the check computes `triggered` as (condition = above ∧ price ≥
target) ∨ (condition = below ∧ price ≤ target); both comparisons are
inclusive, so for condition above with target 100 a price of exactly 100
triggers while 99.99 does not, and for condition below with target 50 a
price of exactly 50 triggers while 50.01 does not. -/
theorem triggered_semantics :
    (∀ (c : Condition) (target price : ℚ),
      triggered c target price = true ↔
        (c = Condition.above ∧ price ≥ target) ∨
        (c = Condition.below ∧ price ≤ target)) ∧
    triggered Condition.above 100 100 = true ∧
    triggered Condition.above 100 (9999 / 100) = false ∧
    triggered Condition.below 50 50 = true ∧
    triggered Condition.below 50 (5001 / 100) = false := by
  refine ⟨fun c target price => ?_, by simp [triggered], ?_, by simp [triggered], ?_⟩
  · cases c <;> simp [triggered]
  · simp only [triggered, decide_eq_false_iff_not]
    norm_num
  · simp only [triggered, decide_eq_false_iff_not]
    norm_num

/-- Helper: the entry guard.  Whenever the alert id is not found, or the
found alert is inactive, the whole check is the identity on the state and
produces no message and no schedule request. -/
lemma check_noop (alerts : List Alert) (alertId : String) (fetched : FetchOutcome)
    (h : ∀ a, alerts.find? (fun x => x.id == alertId) = some a → a.active = false) :
    checkPriceAlerts alerts alertId fetched = ⟨alerts, [], []⟩ := by
  simp only [checkPriceAlerts]
  rcases hfind : alerts.find? (fun a => a.id == alertId) with _ | alert
  · rw [hfind]
  · rw [hfind]
    simp [h alert hfind]

/-- Helper: the triggered branch of the check, written as one equation. -/
lemma check_triggered_eq (alerts : List Alert) (alertId : String)
    (alert : Alert) (p : ℚ)
    (hfind : alerts.find? (fun a => a.id == alertId) = some alert)
    (hactive : alert.active = true) (hp : p ≠ 0)
    (htrig : triggered alert.condition alert.targetPrice p = true) :
    checkPriceAlerts alerts alertId (FetchOutcome.price p) =
      ⟨markTriggeredMap alerts alertId,
       [⟨alert.symbol, alert.condition, alert.targetPrice, p⟩], []⟩ := by
  simp only [checkPriceAlerts]
  rw [hfind]
  simp [hactive, hp, htrig]

/-- Helper: after the deactivation map, every alert carrying the target id
is inactive. -/
lemma markTriggeredMap_active_eq_false (alerts : List Alert) (alertId : String) :
    ∀ a ∈ markTriggeredMap alerts alertId, a.id = alertId → a.active = false := by
  intro a ha hid
  rcases List.mem_map.mp ha with ⟨b, _, rfl⟩
  by_cases h : (b.id == alertId) = true <;> simp_all

/-- Helper: the deactivation map leaves every alert with a different id
untouched (it stays in the list as the same record). -/
lemma markTriggeredMap_mem_of_ne (alerts : List Alert) (alertId : String) :
    ∀ a ∈ alerts, a.id ≠ alertId → a ∈ markTriggeredMap alerts alertId := by
  intro a ha hne
  have hfix : (if a.id == alertId then { a with active := false } else a) = a := by
    simp [hne]
  rw [markTriggeredMap]
  exact hfix ▸ List.mem_map_of_mem _ ha

/-- Helper: the deactivation map preserves the length of the collection. -/
lemma markTriggeredMap_length (alerts : List Alert) (alertId : String) :
    (markTriggeredMap alerts alertId).length = alerts.length := by
  simp [markTriggeredMap]

/-- C3: when the check finds the alert active and observes a triggering
(nonzero) price, it deactivates the alert with that id in the collection,
saves exactly one notification carrying the symbol, the condition, the
target price and the observed price, leaves every other alert unchanged,
and schedules no further wake-up for that alert id. -/
theorem check_triggered_notifies (alerts : List Alert) (alertId : String)
    (alert : Alert) (p : ℚ)
    (hfind : alerts.find? (fun a => a.id == alertId) = some alert)
    (hactive : alert.active = true) (hp : p ≠ 0)
    (htrig : triggered alert.condition alert.targetPrice p = true) :
    (checkPriceAlerts alerts alertId (FetchOutcome.price p)).saved =
      [⟨alert.symbol, alert.condition, alert.targetPrice, p⟩] ∧
    (checkPriceAlerts alerts alertId (FetchOutcome.price p)).scheduled = [] ∧
    (∀ a ∈ (checkPriceAlerts alerts alertId (FetchOutcome.price p)).alerts,
      a.id = alertId → a.active = false) ∧
    (∀ a ∈ alerts, a.id ≠ alertId →
      a ∈ (checkPriceAlerts alerts alertId (FetchOutcome.price p)).alerts) ∧
    (checkPriceAlerts alerts alertId (FetchOutcome.price p)).alerts.length =
      alerts.length := by
  rw [check_triggered_eq alerts alertId alert p hfind hactive hp htrig]
  exact ⟨rfl, rfl, markTriggeredMap_active_eq_false alerts alertId,
    markTriggeredMap_mem_of_ne alerts alertId, markTriggeredMap_length alerts alertId⟩

/-- A sample active alert used by the witnesses: the spec scenario
`{symbol: "XYZ", target: 10, condition: "above"}`. -/
def xyzAlert : Alert :=
  ⟨"alert-1", "XYZ", 10, Condition.above, "t0", true⟩

/-- Witness for C3: the one-alert collection `[xyzAlert]` checked at the
observed price 11 triggers, saves the one notification and schedules
nothing. -/
theorem check_triggered_notifies_witness :
    (([xyzAlert] : List Alert).find? (fun a => a.id == "alert-1") = some xyzAlert ∧
      xyzAlert.active = true ∧ (11 : ℚ) ≠ 0 ∧
      triggered xyzAlert.condition xyzAlert.targetPrice 11 = true) ∧
    (checkPriceAlerts [xyzAlert] "alert-1" (FetchOutcome.price 11)).saved =
      [⟨xyzAlert.symbol, xyzAlert.condition, xyzAlert.targetPrice, 11⟩] ∧
    (checkPriceAlerts [xyzAlert] "alert-1" (FetchOutcome.price 11)).scheduled = [] :=
  ⟨⟨rfl, rfl, by norm_num, by norm_num [triggered, xyzAlert]⟩,
   (check_triggered_notifies [xyzAlert] "alert-1" xyzAlert 11 rfl rfl
      (by norm_num) (by norm_num [triggered, xyzAlert])).1,
   (check_triggered_notifies [xyzAlert] "alert-1" xyzAlert 11 rfl rfl
      (by norm_num) (by norm_num [triggered, xyzAlert])).2.1⟩

/-- Helper: no alert carrying the deleted id survives `deleteAlert`,
whichever branch the tool takes. -/
lemma deleteAlert_no_match (alerts : List Alert) (alertId : String) :
    ∀ a ∈ (deleteAlert alerts alertId).1, (a.id == alertId) = false := by
  intro a ha
  rw [deleteAlert] at ha
  by_cases hlen :
      (alerts.length == (alerts.filter (fun a => !(a.id == alertId))).length) = true
  · rw [if_pos hlen] at ha
    have hsub := List.filter_sublist (p := fun a => !(a.id == alertId)) alerts
    have hlen2 : alerts.length = (alerts.filter (fun a => !(a.id == alertId))).length := by
      simpa using hlen
    have heq := List.Sublist.eq_of_length hsub hlen2.symm
    have := (List.mem_filter.mp (heq ▸ ha)).2
    simpa using this
  · rw [if_neg hlen] at ha
    have := (List.mem_filter.mp ha).2
    simpa using this

/-- Helper: after a delete, `find?` for the deleted id comes back empty. -/
lemma deleteAlert_find?_none (alerts : List Alert) (alertId : String) :
    (deleteAlert alerts alertId).1.find? (fun a => a.id == alertId) = none :=
  List.find?_eq_none.mpr fun a ha => by
    simp [deleteAlert_no_match alerts alertId a ha]

/-- C4: a wake-up whose alert id is absent from the collection, or whose
alert is inactive, is a no-op — no notification, no state change, no new
wake-up; and after deleting an alert, the pending wake-up for its id finds
nothing and is likewise a no-op. -/
theorem check_missing_or_inactive_noop (alerts : List Alert) (alertId : String)
    (fetched : FetchOutcome)
    (h : alerts.find? (fun x => x.id == alertId) = none ∨
      ∃ a, alerts.find? (fun x => x.id == alertId) = some a ∧ a.active = false) :
    checkPriceAlerts alerts alertId fetched = ⟨alerts, [], []⟩ ∧
    ∀ fetched2 : FetchOutcome,
      checkPriceAlerts (deleteAlert alerts alertId).1 alertId fetched2 =
        ⟨(deleteAlert alerts alertId).1, [], []⟩ := by
  constructor
  · refine check_noop alerts alertId fetched fun a ha => ?_
    rcases h with hnone | ⟨b, hb, hbact⟩
    · rw [hnone] at ha
      cases ha
    · rw [hb] at ha
      cases ha
      exact hbact
  · intro fetched2
    refine check_noop _ alertId fetched2 fun a ha => ?_
    rw [deleteAlert_find?_none alerts alertId] at ha
    cases ha

/-- A sample inactive alert used by the witnesses. -/
def abcAlert : Alert :=
  ⟨"alert-9", "ABC", 20, Condition.below, "t0", false⟩

/-- Witness for C4: a wake-up for the inactive alert `abcAlert` is a
no-op, and so is a wake-up fired after deleting it. -/
theorem check_missing_or_inactive_noop_witness :
    (([abcAlert] : List Alert).find? (fun x => x.id == "alert-9") = none ∨
      ∃ a, ([abcAlert] : List Alert).find? (fun x => x.id == "alert-9") = some a ∧
        a.active = false) ∧
    checkPriceAlerts [abcAlert] "alert-9" (FetchOutcome.price 5) =
      ⟨[abcAlert], [], []⟩ ∧
    ∀ fetched2 : FetchOutcome,
      checkPriceAlerts (deleteAlert [abcAlert] "alert-9").1 "alert-9" fetched2 =
        ⟨(deleteAlert [abcAlert] "alert-9").1, [], []⟩ :=
  ⟨Or.inr ⟨abcAlert, rfl, rfl⟩,
   (check_missing_or_inactive_noop [abcAlert] "alert-9" (FetchOutcome.price 5)
      (Or.inr ⟨abcAlert, rfl, rfl⟩)).1,
   (check_missing_or_inactive_noop [abcAlert] "alert-9" (FetchOutcome.price 5)
      (Or.inr ⟨abcAlert, rfl, rfl⟩)).2⟩

/-- C5: when the Price Feed cannot deliver a price (rejected fetch or
parse failure, or a response without a market price), the check for an
active alert terminates without rescheduling, without a notification and
without touching the collection, so the alert stays stored with
`active = true` — dormant. -/
theorem check_feed_failure_dormant (alerts : List Alert) (alertId : String)
    (alert : Alert)
    (hfind : alerts.find? (fun a => a.id == alertId) = some alert)
    (hactive : alert.active = true) :
    checkPriceAlerts alerts alertId FetchOutcome.fetchError = ⟨alerts, [], []⟩ ∧
    checkPriceAlerts alerts alertId FetchOutcome.noPrice = ⟨alerts, [], []⟩ ∧
    alert ∈ alerts ∧ alert.active = true := by
  refine ⟨?_, ?_, List.mem_of_find?_eq_some hfind, hactive⟩ <;>
    · simp only [checkPriceAlerts]
      rw [hfind]
      simp [hactive]

/-- Witness for C5: a feed failure while checking `[xyzAlert]` changes
nothing and keeps the alert active in the store. -/
theorem check_feed_failure_dormant_witness :
    (([xyzAlert] : List Alert).find? (fun a => a.id == "alert-1") = some xyzAlert ∧
      xyzAlert.active = true) ∧
    checkPriceAlerts [xyzAlert] "alert-1" FetchOutcome.fetchError =
      ⟨[xyzAlert], [], []⟩ ∧
    xyzAlert ∈ ([xyzAlert] : List Alert) ∧ xyzAlert.active = true :=
  ⟨⟨rfl, rfl⟩,
   (check_feed_failure_dormant [xyzAlert] "alert-1" xyzAlert rfl rfl).1,
   (check_feed_failure_dormant [xyzAlert] "alert-1" xyzAlert rfl rfl).2.2⟩

/-- C6: every invocation of the check either schedules exactly one new
wake-up — 300 seconds out, for the same alert id, with the collection
unchanged and the alert still present and active — or schedules no
wake-up at all; so each check requests at most one in-flight wake-up
per alert. -/
theorem check_scheduling_dichotomy (alerts : List Alert) (alertId : String)
    (fetched : FetchOutcome) :
    ((checkPriceAlerts alerts alertId fetched).scheduled = [(300, alertId)] ∧
      (checkPriceAlerts alerts alertId fetched).alerts = alerts ∧
      ∃ a, a ∈ alerts ∧ a.id = alertId ∧ a.active = true) ∨
    (checkPriceAlerts alerts alertId fetched).scheduled = [] := by
  simp only [checkPriceAlerts]
  rcases hfind : alerts.find? (fun a => a.id == alertId) with _ | alert
  · right
    rw [hfind]
  · rw [hfind]
    by_cases hact : alert.active = false
    · right
      simp [hact]
    · rcases fetched with _ | _ | p
      · right
        simp [hact]
      · right
        simp [hact]
      · by_cases hp : p = 0
        · right
          simp [hact, hp]
        · by_cases htrig : triggered alert.condition alert.targetPrice p = true
          · right
            simp [hact, hp, htrig]
          · left
            refine ⟨by simp [hact, hp, htrig], by simp [hact, hp, htrig], alert,
              List.mem_of_find?_eq_some hfind, ?_, ?_⟩
            · simpa using List.find?_some hfind
            · simpa using hact

/-- Helper: deactivating the same id twice is the same as deactivating it
once. -/
lemma markTriggeredMap_idem (alerts : List Alert) (alertId : String) :
    markTriggeredMap (markTriggeredMap alerts alertId) alertId =
      markTriggeredMap alerts alertId := by
  simp only [markTriggeredMap, List.map_map]
  refine List.map_congr_left fun a _ => ?_
  by_cases h : a.id = alertId <;> simp [h]

/-- Helper: after the deactivation map, no alert with the target id is
still active. -/
lemma markTriggeredMap_any_false (alerts : List Alert) (alertId : String) :
    (markTriggeredMap alerts alertId).any (fun a => a.id == alertId && a.active) =
      false := by
  rw [List.any_eq_false]
  intro a ha
  simp only [markTriggeredMap] at ha
  rcases List.mem_map.mp ha with ⟨b, _, rfl⟩
  by_cases h : (b.id == alertId) = true <;> simp [h]

/-- Helper: the collection a check leaves behind is either the input
collection or the input with the target id deactivated. -/
lemma check_alerts_cases (alerts : List Alert) (alertId : String)
    (fetched : FetchOutcome) :
    (checkPriceAlerts alerts alertId fetched).alerts = alerts ∨
    (checkPriceAlerts alerts alertId fetched).alerts =
      markTriggeredMap alerts alertId := by
  simp only [checkPriceAlerts]
  rcases hfind : alerts.find? (fun a => a.id == alertId) with _ | alert
  · left; rw [hfind]
  · rw [hfind]
    by_cases hact : alert.active = false
    · left; simp [hact]
    · rcases fetched with _ | _ | p
      · left; simp [hact]
      · left; simp [hact]
      · by_cases hp : p = 0
        · left; simp [hact, hp]
        · by_cases htrig : triggered alert.condition alert.targetPrice p = true
          · right; simp [hact, hp, htrig]
          · left; simp [hact, hp, htrig]

/-- Helper: the deactivation map relates input and output pointwise — ids
are preserved and an inactive alert never becomes active. -/
lemma markTriggeredMap_forall₂ (alerts : List Alert) (alertId : String) :
    List.Forall₂ (fun a b => a.id = b.id ∧ (a.active = false → b.active = false))
      alerts (markTriggeredMap alerts alertId) := by
  rw [markTriggeredMap, List.forall₂_map_right_iff]
  refine List.forall₂_same.mpr fun a _ => ?_
  by_cases h : (a.id == alertId) = true <;> simp [h]

/-- C7: no operation reactivates an alert — the check rewrites the
collection pointwise without turning `active` from false back to true,
delete only removes records, and create only appends a new record; a
second `markTriggered` of the same id is a no-op reporting no change;
and after `markTriggered` no alert with that id appears in the active
listing. -/
theorem active_never_reactivated :
    (∀ (alerts : List Alert) (alertId : String) (fetched : FetchOutcome),
      List.Forall₂ (fun a b => a.id = b.id ∧ (a.active = false → b.active = false))
        alerts (checkPriceAlerts alerts alertId fetched).alerts) ∧
    (∀ (alerts : List Alert) (alertId : String),
      (deleteAlert alerts alertId).1.Sublist alerts) ∧
    (∀ (alerts : List Alert) (symbol : String) (targetPrice : ℚ)
        (condition : Condition) (now : Nat) (createdAt : String),
      ∃ newAlert : Alert,
        (setPriceAlert alerts symbol targetPrice condition now createdAt).1 =
          alerts ++ [newAlert]) ∧
    (∀ (alerts : List Alert) (alertId : String),
      markTriggered (markTriggered alerts alertId).1 alertId =
        ((markTriggered alerts alertId).1, false)) ∧
    (∀ (alerts : List Alert) (alertId : String) (l : List AlertView),
      listAlerts (markTriggered alerts alertId).1 = some l →
        ∀ v ∈ l, v.id ≠ alertId) := by
  refine ⟨fun alerts alertId fetched => ?_, fun alerts alertId => ?_,
    fun alerts symbol targetPrice condition now createdAt => ⟨_, rfl⟩,
    fun alerts alertId => ?_, fun alerts alertId l hl v hv => ?_⟩
  · rcases check_alerts_cases alerts alertId fetched with h | h
    · rw [h]
      exact List.forall₂_same.mpr fun a _ => ⟨rfl, id⟩
    · rw [h]
      exact markTriggeredMap_forall₂ alerts alertId
  · rw [deleteAlert]
    by_cases hlen :
        (alerts.length ==
          (alerts.filter (fun a => !(a.id == alertId))).length) = true
    · rw [if_pos hlen]
    · rw [if_neg hlen]
      exact List.filter_sublist alerts
  · simp only [markTriggered]
    rw [markTriggeredMap_idem, markTriggeredMap_any_false]
  · simp only [markTriggered, listAlerts] at hl
    by_cases hemp :
        ((markTriggeredMap alerts alertId).filter (fun a => a.active)).isEmpty = true
    · rw [if_pos hemp] at hl
      cases hl
    · rw [if_neg hemp] at hl
      cases hl
      rcases List.mem_map.mp hv with ⟨a, ha, rfl⟩
      have hmem := List.mem_filter.mp ha
      intro hid
      have := markTriggeredMap_active_eq_false alerts alertId a hmem.1 hid
      simp [this] at hmem

/-- Witness for C7 at a concrete input: a second `markTriggered` of
`xyzAlert` is a no-op reporting no change, and the active listing after
`markTriggered` carries no view with its id. -/
theorem active_never_reactivated_witness :
    markTriggered (markTriggered [xyzAlert] "alert-1").1 "alert-1" =
      ((markTriggered [xyzAlert] "alert-1").1, false) ∧
    ∀ l : List AlertView, listAlerts (markTriggered [xyzAlert] "alert-1").1 = some l →
      ∀ v ∈ l, v.id ≠ "alert-1" :=
  ⟨active_never_reactivated.2.2.2.1 [xyzAlert] "alert-1",
   active_never_reactivated.2.2.2.2 [xyzAlert] "alert-1"⟩

/-- Helper: deleting an id that matches nothing leaves the collection
untouched and reports `false`. -/
lemma deleteAlert_of_no_match (l : List Alert) (alertId : String)
    (h : ∀ a ∈ l, (a.id == alertId) = false) :
    deleteAlert l alertId = (l, false) := by
  rw [deleteAlert]
  have hfix : l.filter (fun a => !(a.id == alertId)) = l :=
    List.filter_eq_self.mpr fun a ha => by simp [h a ha]
  rw [hfix]
  simp

/-- Helper: with pairwise-distinct ids, deleting a present id drops
exactly one record. -/
lemma filter_length_of_mem_nodup (alerts : List Alert) (alertId : String)
    (hnodup : (alerts.map Alert.id).Nodup)
    (hmem : ∃ a ∈ alerts, a.id = alertId) :
    (alerts.filter (fun a => !(a.id == alertId))).length + 1 = alerts.length := by
  induction alerts with
  | nil => rcases hmem with ⟨a, ha, _⟩; cases ha
  | cons b tl ih =>
    rw [List.map_cons, List.nodup_cons] at hnodup
    by_cases hb : b.id = alertId
    · have hkeep : tl.filter (fun a => !(a.id == alertId)) = tl := by
        refine List.filter_eq_self.mpr fun a ha => ?_
        have : a.id ≠ alertId := by
          intro heq
          exact hnodup.1 (hb ▸ heq ▸ List.mem_map_of_mem Alert.id ha)
        simp [this]
      simp [List.filter_cons, hb, hkeep]
    · rcases hmem with ⟨a, ha, haid⟩
      rcases List.mem_cons.mp ha with rfl | hatl
      · exact absurd haid hb
      · have := ih hnodup.2 ⟨a, hatl, haid⟩
        simp [List.filter_cons, hb]
        omega

/-- C8: on a collection with pairwise-distinct ids (the data-model
invariant), deleting a present id reports a removal, shrinks the
collection by exactly one, and keeps every other alert; deleting an
absent id reports `false` and changes nothing; and deleting the same id
twice reports `true` then `false`. -/
theorem deleteAlert_spec (alerts : List Alert) (alertId : String)
    (hnodup : (alerts.map Alert.id).Nodup) :
    ((∃ a ∈ alerts, a.id = alertId) →
      (deleteAlert alerts alertId).2 = true ∧
      (deleteAlert alerts alertId).1.length + 1 = alerts.length ∧
      (deleteAlert alerts alertId).1.Sublist alerts ∧
      ∀ a ∈ alerts, a.id ≠ alertId → a ∈ (deleteAlert alerts alertId).1) ∧
    ((∀ a ∈ alerts, a.id ≠ alertId) →
      (deleteAlert alerts alertId).2 = false ∧
      (deleteAlert alerts alertId).1 = alerts) ∧
    (deleteAlert (deleteAlert alerts alertId).1 alertId).2 = false := by
  refine ⟨fun hmem => ?_, fun habs => ?_, ?_⟩
  · have hlen := filter_length_of_mem_nodup alerts alertId hnodup hmem
    have hne : (alerts.length ==
        (alerts.filter (fun a => !(a.id == alertId))).length) = false := by
      simp only [beq_eq_false_iff_ne, ne_eq]
      omega
    have hdel : deleteAlert alerts alertId =
        (alerts.filter (fun a => !(a.id == alertId)), true) := by
      rw [deleteAlert]
      simp [hne]
    rw [hdel]
    refine ⟨rfl, hlen, List.filter_sublist alerts, fun a ha hne2 => ?_⟩
    exact List.mem_filter.mpr ⟨ha, by simp [hne2]⟩
  · have h2 : ∀ a ∈ alerts, (a.id == alertId) = false := fun a ha => by
      simp [habs a ha]
    rw [deleteAlert_of_no_match alerts alertId h2]
    exact ⟨rfl, rfl⟩
  · rw [deleteAlert_of_no_match (deleteAlert alerts alertId).1 alertId
      (deleteAlert_no_match alerts alertId)]

/-- Witness for C8: deleting `alert-1` from the two-alert collection
reports `true` and drops exactly one record; deleting it again reports
`false`. -/
theorem deleteAlert_spec_witness :
    (([xyzAlert, abcAlert] : List Alert).map Alert.id).Nodup ∧
    (deleteAlert [xyzAlert, abcAlert] "alert-1").2 = true ∧
    (deleteAlert [xyzAlert, abcAlert] "alert-1").1.length + 1 =
      ([xyzAlert, abcAlert] : List Alert).length ∧
    (deleteAlert (deleteAlert [xyzAlert, abcAlert] "alert-1").1 "alert-1").2 =
      false :=
  ⟨by decide,
   ((deleteAlert_spec [xyzAlert, abcAlert] "alert-1" (by decide)).1
      ⟨xyzAlert, List.mem_cons_self _ _, rfl⟩).1,
   ((deleteAlert_spec [xyzAlert, abcAlert] "alert-1" (by decide)).1
      ⟨xyzAlert, List.mem_cons_self _ _, rfl⟩).2.1,
   (deleteAlert_spec [xyzAlert, abcAlert] "alert-1" (by decide)).2.2⟩

/-- C9: the listing tool leaves the collection untouched and returns
exactly the active alerts — empty answer (the no-alerts message) exactly
when none is active, and otherwise the views of the active alerts with
their id, symbol, condition, target price and creation time, in
insertion order (the filtered list is a sublist of the collection). -/
theorem listAlerts_spec (alerts : List Alert) :
    (listAlertsTool alerts).1 = alerts ∧
    ((listAlertsTool alerts).2 = none ↔ ∀ a ∈ alerts, a.active = false) ∧
    ∀ l, (listAlertsTool alerts).2 = some l →
      ((∀ v, v ∈ l ↔ ∃ a ∈ alerts, a.active = true ∧
          v = ⟨a.id, a.symbol, a.condition, a.targetPrice, a.createdAt⟩) ∧
       l = (alerts.filter (fun a => a.active)).map Alert.view ∧
       (alerts.filter (fun a => a.active)).Sublist alerts) := by
  refine ⟨rfl, ?_, fun l hl => ?_⟩
  · simp only [listAlertsTool, listAlerts]
    by_cases hemp : (alerts.filter (fun a => a.active)).isEmpty = true
    · rw [if_pos hemp]
      simp only [true_iff]
      rw [List.isEmpty_iff, List.filter_eq_nil_iff] at hemp
      exact fun a ha => by simpa using hemp a ha
    · rw [if_neg hemp]
      simp only [reduceCtorEq, false_iff, not_forall]
      rw [List.isEmpty_iff] at hemp
      rcases List.exists_mem_of_ne_nil _ (fun h => hemp h) with ⟨a, ha⟩
      have hmem := List.mem_filter.mp ha
      exact ⟨a, hmem.1, by simp [hmem.2]⟩
  · simp only [listAlertsTool, listAlerts] at hl
    by_cases hemp : (alerts.filter (fun a => a.active)).isEmpty = true
    · rw [if_pos hemp] at hl
      cases hl
    · rw [if_neg hemp] at hl
      cases hl
      refine ⟨fun v => ?_, rfl, List.filter_sublist alerts⟩
      constructor
      · intro hv
        rcases List.mem_map.mp hv with ⟨a, ha, rfl⟩
        have hmem := List.mem_filter.mp ha
        exact ⟨a, hmem.1, by simpa using hmem.2, rfl⟩
      · rintro ⟨a, ha, hact, rfl⟩
        exact List.mem_map_of_mem _ (List.mem_filter.mpr ⟨ha, by simp [hact]⟩)

/-- Witness for C9: listing the two-alert collection returns the view of
the single active alert and leaves the collection unchanged. -/
theorem listAlerts_spec_witness :
    (listAlertsTool [xyzAlert, abcAlert]).2 = some [Alert.view xyzAlert] ∧
    [Alert.view xyzAlert] =
      (([xyzAlert, abcAlert] : List Alert).filter (fun a => a.active)).map
        Alert.view ∧
    (listAlertsTool [xyzAlert, abcAlert]).1 = [xyzAlert, abcAlert] :=
  ⟨rfl,
   ((listAlerts_spec [xyzAlert, abcAlert]).2.2 [Alert.view xyzAlert] rfl).2.1,
   (listAlerts_spec [xyzAlert, abcAlert]).1⟩

/-- C10: when the feed responds but the extracted price is 0 (or the
price field is absent), the check returns before evaluating the trigger:
no notification, no state change, no new wake-up — even though for
condition `below` with a positive target a price of 0 would have
satisfied the trigger test. -/
theorem check_zero_price_noop (alerts : List Alert) (alertId : String)
    (alert : Alert)
    (hfind : alerts.find? (fun a => a.id == alertId) = some alert)
    (hactive : alert.active = true) :
    checkPriceAlerts alerts alertId (FetchOutcome.price 0) = ⟨alerts, [], []⟩ ∧
    checkPriceAlerts alerts alertId FetchOutcome.noPrice = ⟨alerts, [], []⟩ ∧
    (alert.condition = Condition.below → 0 < alert.targetPrice →
      triggered alert.condition alert.targetPrice 0 = true) := by
  refine ⟨?_, ?_, fun hc ht => ?_⟩
  · simp only [checkPriceAlerts]
    rw [hfind]
    simp [hactive]
  · simp only [checkPriceAlerts]
    rw [hfind]
    simp [hactive]
  · rw [hc]
    simp [triggered, ht.le]

/-- A sample below-condition alert with a positive target, used by the
C10 witness. -/
def defAlert : Alert :=
  ⟨"alert-2", "DEF", 20, Condition.below, "t0", true⟩

/-- Witness for C10: a reported price of 0 for the active below-20 alert
changes nothing, although 0 would have satisfied the below-20 trigger. -/
theorem check_zero_price_noop_witness :
    (([defAlert] : List Alert).find? (fun a => a.id == "alert-2") =
        some defAlert ∧ defAlert.active = true) ∧
    checkPriceAlerts [defAlert] "alert-2" (FetchOutcome.price 0) =
      ⟨[defAlert], [], []⟩ ∧
    triggered defAlert.condition defAlert.targetPrice 0 = true :=
  ⟨⟨rfl, rfl⟩,
   (check_zero_price_noop [defAlert] "alert-2" defAlert rfl rfl).1,
   (check_zero_price_noop [defAlert] "alert-2" defAlert rfl rfl).2.2 rfl
     (by norm_num [defAlert])⟩
